import Mathlib

/-!
Verification of the rtnetlink link-set request builder and executor.

The development embeds `src/link/set.rs` and `src/link/set_bond_port.rs`:
the link-set request builder (`LinkSetRequest`), the two bond-port
sub-builders (`BondPortSetRequest` of `set.rs` and of `set_bond_port.rs`),
the netlink request-header flag computation of `execute`, and the
reply-stream draining loop.  Machine integers (`u16`, `u32`, `i32`) are
modelled as `Nat`/`Int`; the only bitwise operations the source performs
are `|=`, `&= !mask` and `|` on `u32` header words, modelled by `|||`,
`&&&` and a 32-bit complement.  The transport handle is an external
collaborator and is not part of the state; `execute` is modelled by the
pure data it computes: the netlink request it builds and the function
draining the reply stream.
-/

set_option linter.unusedVariables false

namespace Rtnetlink

/-- Bond-port tunables (`InfoBondPort` of the attribute collaborator crate):
`QueueId(u16)`, `Prio(i32)`, `LinkFailureCount(u32)`. -/
inductive InfoBondPort where
| QueueId (q : Nat)
| Prio (p : Int)
| LinkFailureCount (c : Nat)
deriving DecidableEq

/-- Slave-kind marker (`InfoSlaveKind`); only `Bond` is used by this core,
`Other` stands for the remaining kinds of the closed variant set. -/
inductive InfoSlaveKind where
| Bond
| Other (s : String)
deriving DecidableEq

/-- Slave-data payload (`InfoSlaveData`). -/
inductive InfoSlaveData where
| BondPort (l : List InfoBondPort)
| Other (b : List Nat)
deriving DecidableEq

/-- Port-kind marker (`InfoPortKind`). -/
inductive InfoPortKind where
| Bond
| Other (s : String)
deriving DecidableEq

/-- Port-data payload (`InfoPortData`). -/
inductive InfoPortData where
| BondPort (l : List InfoBondPort)
| Other (b : List Nat)
deriving DecidableEq

/-- Nested info sub-attributes (`link::nlas::Info` of the attribute
collaborator crate), restricted to the variants this core emits or
inspects, plus `Other` for the rest of the closed variant set. -/
inductive Info where
| SlaveKind (k : InfoSlaveKind)
| SlaveData (d : InfoSlaveData)
| PortKind (k : InfoPortKind)
| PortData (d : InfoPortData)
| Other (b : List Nat)
deriving DecidableEq

/-- Top-level link attributes (`link::nlas::Nla`), restricted to the
variants this core emits, plus `Other` for the rest. -/
inductive Nla where
| Master (i : Nat)
| IfName (n : String)
| Mtu (m : Nat)
| Address (a : List Nat)
| NetNsPid (p : Nat)
| NetNsFd (f : Int)
| Info (l : List Rtnetlink.Info)
| Other (b : List Nat)
deriving DecidableEq

/-- Netlink request-header flag bits (`netlink_packet_core`). -/
def NLM_F_REQUEST : Nat := 1

/-- Netlink request-header flag bit for acknowledgements. -/
def NLM_F_ACK : Nat := 4

/-- Netlink request-header flag bit for replace semantics. -/
def NLM_F_REPLACE : Nat := 256

/-- Netlink request-header flag bit for exclusive-create semantics. -/
def NLM_F_EXCL : Nat := 512

/-- Netlink request-header flag bit for create semantics. -/
def NLM_F_CREATE : Nat := 1024

/-- Interface flag bit: administratively up. -/
def IFF_UP : Nat := 1

/-- Interface flag bit: no ARP. -/
def IFF_NOARP : Nat := 128

/-- Interface flag bit: promiscuous mode. -/
def IFF_PROMISC : Nat := 256

/-- Bitwise complement within 32 bits: the Rust `!x` on a `u32`. -/
def u32Not (x : Nat) : Nat := 4294967295 ^^^ x

/-- Fixed part of a `LinkMessage`: interface index, flag word and flag
change-mask (each a `u32`). -/
structure LinkHeader where
  index : Nat
  flags : Nat
  change_mask : Nat
deriving DecidableEq

/-- The all-zero default link header. -/
def LinkHeader.default : LinkHeader :=
  { index := 0, flags := 0, change_mask := 0 }

/-- A `LinkMessage`: header plus ordered attribute list. -/
structure LinkMessage where
  header : LinkHeader
  nlas : List Nla
deriving DecidableEq

/-- `LinkMessage::default()`: zero header, no attributes. -/
def LinkMessage.default : LinkMessage :=
  { header := LinkHeader.default, nlas := [] }

/-- The link-set request builder (`LinkSetRequest` of `set.rs`): the
accumulated message and the `replace` flag.  The connection handle is the
transport collaborator and carries no modelled state. -/
structure LinkSetRequest where
  message : LinkMessage
  replace : Bool
deriving DecidableEq

/-- `LinkSetRequest::new(handle, index)`.  The source builds a local
`message` with the target index set and then constructs the request from
`LinkMessage::default()` instead, discarding the indexed message; the dead
local binding is kept here to mirror the source faithfully. -/
def LinkSetRequest.new (index : Nat) : LinkSetRequest :=
  let message : LinkMessage :=
    { LinkMessage.default with
      header := { LinkMessage.default.header with index := index } }
  { message := LinkMessage.default, replace := false }

/-- `LinkSetRequest::master`: push a `Master` attribute. -/
def LinkSetRequest.master (s : LinkSetRequest) (master_index : Nat) :
    LinkSetRequest :=
  { s with message :=
      { s.message with nlas := s.message.nlas ++ [Nla.Master master_index] } }

/-- `LinkSetRequest::nomaster`: push a `Master(0)` attribute. -/
def LinkSetRequest.nomaster (s : LinkSetRequest) : LinkSetRequest :=
  { s with message :=
      { s.message with nlas := s.message.nlas ++ [Nla.Master 0] } }

/-- `LinkSetRequest::up`: OR the UP bit into the flag word and the
change-mask. -/
def LinkSetRequest.up (s : LinkSetRequest) : LinkSetRequest :=
  { s with message :=
      { s.message with header :=
          { s.message.header with
            flags := s.message.header.flags ||| IFF_UP,
            change_mask := s.message.header.change_mask ||| IFF_UP } } }

/-- `LinkSetRequest::down`: AND-NOT the UP bit out of the flag word, OR it
into the change-mask. -/
def LinkSetRequest.down (s : LinkSetRequest) : LinkSetRequest :=
  { s with message :=
      { s.message with header :=
          { s.message.header with
            flags := s.message.header.flags &&& u32Not IFF_UP,
            change_mask := s.message.header.change_mask ||| IFF_UP } } }

/-- `LinkSetRequest::promiscuous`. -/
def LinkSetRequest.promiscuous (s : LinkSetRequest) (enable : Bool) :
    LinkSetRequest :=
  { s with message :=
      { s.message with header :=
          { s.message.header with
            flags :=
              if enable then s.message.header.flags ||| IFF_PROMISC
              else s.message.header.flags &&& u32Not IFF_PROMISC,
            change_mask := s.message.header.change_mask ||| IFF_PROMISC } } }

/-- `LinkSetRequest::arp`. -/
def LinkSetRequest.arp (s : LinkSetRequest) (enable : Bool) :
    LinkSetRequest :=
  { s with message :=
      { s.message with header :=
          { s.message.header with
            flags :=
              if enable then s.message.header.flags &&& u32Not IFF_NOARP
              else s.message.header.flags ||| IFF_NOARP,
            change_mask := s.message.header.change_mask ||| IFF_NOARP } } }

/-- `LinkSetRequest::name`: push an `IfName` attribute. -/
def LinkSetRequest.name (s : LinkSetRequest) (name : String) :
    LinkSetRequest :=
  { s with message :=
      { s.message with nlas := s.message.nlas ++ [Nla.IfName name] } }

/-- `LinkSetRequest::mtu`: push an `Mtu` attribute. -/
def LinkSetRequest.mtu (s : LinkSetRequest) (mtu : Nat) : LinkSetRequest :=
  { s with message :=
      { s.message with nlas := s.message.nlas ++ [Nla.Mtu mtu] } }

/-- `LinkSetRequest::address`: push an `Address` attribute. -/
def LinkSetRequest.address (s : LinkSetRequest) (address : List Nat) :
    LinkSetRequest :=
  { s with message :=
      { s.message with nlas := s.message.nlas ++ [Nla.Address address] } }

/-- `LinkSetRequest::setns_by_pid`: push a `NetNsPid` attribute. -/
def LinkSetRequest.setns_by_pid (s : LinkSetRequest) (pid : Nat) :
    LinkSetRequest :=
  { s with message :=
      { s.message with nlas := s.message.nlas ++ [Nla.NetNsPid pid] } }

/-- `LinkSetRequest::setns_by_fd`: push a `NetNsFd` attribute. -/
def LinkSetRequest.setns_by_fd (s : LinkSetRequest) (fd : Int) :
    LinkSetRequest :=
  { s with message :=
      { s.message with nlas := s.message.nlas ++ [Nla.NetNsFd fd] } }

/-- `LinkSetRequest::replace` (the builder method; named `replaceReq` here
because the struct field of the same name takes the projection name):
switch the request to replace semantics. -/
def LinkSetRequest.replaceReq (s : LinkSetRequest) : LinkSetRequest :=
  { s with replace := true }

/-- `LinkSetRequest::append_nla`: push one attribute. -/
def LinkSetRequest.append_nla (s : LinkSetRequest) (nla : Nla) :
    LinkSetRequest :=
  { s with message := { s.message with nlas := s.message.nlas ++ [nla] } }

/-- `LinkSetRequest::link_info`: build the nested info list — the
slave-kind marker first, then the slave-data payload when one is given —
and append it as one `Info` attribute. -/
def LinkSetRequest.link_info (s : LinkSetRequest) (slavekind : InfoSlaveKind)
    (slavedata : Option InfoSlaveData) : LinkSetRequest :=
  let link_info_nlas :=
    match slavedata with
    | some d => [Info.SlaveKind slavekind, Info.SlaveData d]
    | none => [Info.SlaveKind slavekind]
  s.append_nla (Nla.Info link_info_nlas)

/-- The netlink request `LinkSetRequest::execute` builds before sending:
its header flag word and the link message it wraps. -/
structure NetlinkRequest where
  flags : Nat
  message : LinkMessage
deriving DecidableEq

/-- Header-flag computation of `LinkSetRequest::execute`:
`NLM_F_REQUEST | NLM_F_ACK | replace | NLM_F_EXCL | NLM_F_CREATE`, where
`replace` is `NLM_F_REPLACE` when the replace flag is set and `NLM_F_EXCL`
otherwise. -/
def LinkSetRequest.buildRequest (s : LinkSetRequest) : NetlinkRequest :=
  { flags :=
      NLM_F_REQUEST ||| NLM_F_ACK |||
        (if s.replace then NLM_F_REPLACE else NLM_F_EXCL) |||
        NLM_F_EXCL ||| NLM_F_CREATE,
    message := s.message }

/-- Modelled from the spec: the crate-level `try_nl!` macro (the crate
root is not under `src/`) inspects a reply message for an embedded error
code; a zero or absent code means continue draining, a nonzero code is the
terminal failure.  A reply is modelled by its optional embedded error
code, `tryNl` by the code it surfaces, if any. -/
def tryNl (reply : Option Int) : Option Int :=
  match reply with
  | some code => if code = 0 then none else some code
  | none => none

/-- The reply-draining loop of `LinkSetRequest::execute`: consume the
stream in order, stop with the first error `try_nl!` surfaces, succeed
when the stream ends with none surfaced. -/
def drain : List (Option Int) → Except Int Unit
  | [] => Except.ok ()
  | reply :: rest =>
    match tryNl reply with
    | some code => Except.error code
    | none => drain rest

/-- The bond-port sub-builder of `set.rs` (`BondPortSetRequest`): the
wrapped link-set request and the accumulated bond-port data list. -/
structure BondPortSetRequest where
  request : LinkSetRequest
  info_slave_data : List InfoBondPort
deriving DecidableEq

/-- `LinkSetRequest::bondport`: set the name attribute, then wrap the
request in a sub-builder with empty bond-port data. -/
def LinkSetRequest.bondport (s : LinkSetRequest) (name : String) :
    BondPortSetRequest :=
  { request := s.name name, info_slave_data := [] }

/-- `BondPortSetRequest::up` of `set.rs`. -/
def BondPortSetRequest.up (b : BondPortSetRequest) : BondPortSetRequest :=
  { b with request := b.request.up }

/-- `BondPortSetRequest::queue_id` of `set.rs`: push a `QueueId` entry. -/
def BondPortSetRequest.queue_id (b : BondPortSetRequest) (queue_id : Nat) :
    BondPortSetRequest :=
  { b with info_slave_data :=
      b.info_slave_data ++ [InfoBondPort.QueueId queue_id] }

/-- `BondPortSetRequest::prio` of `set.rs`: push a `Prio` entry. -/
def BondPortSetRequest.prio (b : BondPortSetRequest) (prio : Int) :
    BondPortSetRequest :=
  { b with info_slave_data := b.info_slave_data ++ [InfoBondPort.Prio prio] }

/-- `BondPortSetRequest::linkfailurecount` of `set.rs`. -/
def BondPortSetRequest.linkfailurecount (b : BondPortSetRequest)
    (linkfailurecount : Nat) : BondPortSetRequest :=
  { b with info_slave_data :=
      b.info_slave_data ++ [InfoBondPort.LinkFailureCount linkfailurecount] }

/-- `BondPortSetRequest::match_name` of `set.rs`: push an `IfName`
attribute onto the wrapped request. -/
def BondPortSetRequest.match_name (b : BondPortSetRequest) (name : String) :
    BondPortSetRequest :=
  { b with request :=
      { b.request with message :=
          { b.request.message with
            nlas := b.request.message.nlas ++ [Nla.IfName name] } } }

/-- The link-set request that `BondPortSetRequest::execute` of `set.rs`
submits: the wrapped request with
`link_info(InfoSlaveKind::Bond, Some(InfoSlaveData::BondPort(data)))`
applied; `execute` then runs `LinkSetRequest::execute` on it. -/
def BondPortSetRequest.executeRequest (b : BondPortSetRequest) :
    LinkSetRequest :=
  b.request.link_info InfoSlaveKind.Bond
    (some (InfoSlaveData.BondPort b.info_slave_data))

namespace set_bond_port

/-- The bond-port sub-builder of `set_bond_port.rs`: the wrapped link-set
request and the accumulated bond-port data list. -/
structure BondPortSetRequest where
  request : LinkSetRequest
  info_port_data : List InfoBondPort
deriving DecidableEq

/-- `BondPortSetRequest::queue_id` of `set_bond_port.rs`. -/
def BondPortSetRequest.queue_id (b : BondPortSetRequest) (queue_id : Nat) :
    BondPortSetRequest :=
  { b with info_port_data :=
      b.info_port_data ++ [InfoBondPort.QueueId queue_id] }

/-- `BondPortSetRequest::prio` of `set_bond_port.rs`. -/
def BondPortSetRequest.prio (b : BondPortSetRequest) (prio : Int) :
    BondPortSetRequest :=
  { b with info_port_data := b.info_port_data ++ [InfoBondPort.Prio prio] }

/-- `BondPortSetRequest::port_link_info` of `set_bond_port.rs`: build the
nested info list — the port-kind marker first, then the port-data payload
when one is given — and push it as one `Info` attribute onto the wrapped
request. -/
def BondPortSetRequest.port_link_info (b : BondPortSetRequest)
    (portkind : InfoPortKind) (portdata : Option InfoPortData) :
    BondPortSetRequest :=
  let link_info_nlas :=
    match portdata with
    | some d => [Info.PortKind portkind, Info.PortData d]
    | none => [Info.PortKind portkind]
  { b with request :=
      { b.request with message :=
          { b.request.message with
            nlas := b.request.message.nlas ++ [Nla.Info link_info_nlas] } } }

/-- The link-set request that `BondPortSetRequest::execute` of
`set_bond_port.rs` submits: the wrapped request after
`port_link_info(InfoPortKind::Bond, Some(InfoPortData::BondPort(data)))`;
`execute` then runs `LinkSetRequest::execute` on it. -/
def BondPortSetRequest.executeRequest (b : BondPortSetRequest) :
    LinkSetRequest :=
  (b.port_link_info InfoPortKind.Bond
    (some (InfoPortData.BondPort b.info_port_data))).request

/-- `BondPortSetRequest::is_bond_port` of `set_bond_port.rs`: find the
first port-data payload produced by scanning the attribute list — for each
`Info` attribute, the first `PortData` sub-attribute inside it, skipping
`Info` attributes with none — and test whether it is the `BondPort`
variant. -/
def BondPortSetRequest.is_bond_port (message : LinkMessage) : Bool :=
  let port_data :=
    message.nlas.findSome? fun nla =>
      match nla with
      | Nla.Info info_data =>
        info_data.findSome? fun info =>
          match info with
          | Info.PortData data => some data
          | _ => none
      | _ => none
  match port_data with
  | some (InfoPortData.BondPort _) => true
  | _ => false

end set_bond_port

/-- Tests whether a nested info sub-attribute is a data payload
(slave-data or port-data). -/
def isDataAttr (info : Info) : Bool :=
  match info with
  | Info.SlaveData _ => true
  | Info.PortData _ => true
  | _ => false

/-- Tests whether a nested info sub-attribute is a port-data payload. -/
def isPortDataInfo (info : Info) : Bool :=
  match info with
  | Info.PortData _ => true
  | _ => false

/-- Tests whether a top-level attribute is an `Info` attribute containing
a port-data sub-attribute. -/
def nlaContainsPortData (nla : Nla) : Bool :=
  match nla with
  | Nla.Info l => l.any isPortDataInfo
  | _ => false

/-- Specification-side reading of `is_bond_port`, following the claim's
words: the first `PortData` sub-attribute found inside the first `Info`
attribute of the message that contains one. -/
def firstPortDataSpec (m : LinkMessage) : Option InfoPortData :=
  match m.nlas.find? nlaContainsPortData with
  | some (Nla.Info l) =>
    match l.find? isPortDataInfo with
    | some (Info.PortData d) => some d
    | _ => none
  | _ => none

/-- One builder call of the fluent link-set surface (the `Self`-returning
setters of `LinkSetRequest`). -/
inductive SetterCall where
| master (i : Nat)
| nomaster
| up
| down
| promiscuous (enable : Bool)
| arp (enable : Bool)
| name (n : String)
| mtu (m : Nat)
| address (a : List Nat)
| setns_by_pid (p : Nat)
| setns_by_fd (f : Int)
| replace
deriving DecidableEq

/-- Runs one setter call on a link-set request. -/
def applyCall (c : SetterCall) (s : LinkSetRequest) : LinkSetRequest :=
  match c with
  | SetterCall.master i => s.master i
  | SetterCall.nomaster => s.nomaster
  | SetterCall.up => s.up
  | SetterCall.down => s.down
  | SetterCall.promiscuous e => s.promiscuous e
  | SetterCall.arp e => s.arp e
  | SetterCall.name n => s.name n
  | SetterCall.mtu m => s.mtu m
  | SetterCall.address a => s.address a
  | SetterCall.setns_by_pid p => s.setns_by_pid p
  | SetterCall.setns_by_fd f => s.setns_by_fd f
  | SetterCall.replace => s.replaceReq

/-- Runs a sequence of setter calls in order. -/
def applyCalls (calls : List SetterCall) (s : LinkSetRequest) :
    LinkSetRequest :=
  calls.foldl (fun t c => applyCall c t) s

/-- The top-level attributes one setter call contributes: one attribute
for the pushing setters, none for the header-flag and replace setters. -/
def contributed (c : SetterCall) : List Nla :=
  match c with
  | SetterCall.master i => [Nla.Master i]
  | SetterCall.nomaster => [Nla.Master 0]
  | SetterCall.up => []
  | SetterCall.down => []
  | SetterCall.promiscuous _ => []
  | SetterCall.arp _ => []
  | SetterCall.name n => [Nla.IfName n]
  | SetterCall.mtu m => [Nla.Mtu m]
  | SetterCall.address a => [Nla.Address a]
  | SetterCall.setns_by_pid p => [Nla.NetNsPid p]
  | SetterCall.setns_by_fd f => [Nla.NetNsFd f]
  | SetterCall.replace => []

/-- The attributes a call sequence contributes, in call order. -/
def contributedAll : List SetterCall → List Nla
  | [] => []
  | c :: rest => contributed c ++ contributedAll rest

/-- C1: the interface index passed to `LinkSetRequest::new` never reaches
the built message: the indexed local message is discarded and the default
(index 0) message used, so a request built for link index 9 carries
header index 0, not 9. -/
theorem new_discards_index :
    (LinkSetRequest.new 9).message.header.index = 0 ∧
    ¬ (LinkSetRequest.new 9).message.header.index = 9 :=
  ⟨rfl, by decide⟩

/-- C2 counterexample: a sub-builder whose accumulated bond-port data
list is empty still emits a port-data sub-attribute (carrying the empty
list) inside the Info attribute, instead of the kind marker alone. -/
theorem empty_bond_port_data_still_sent :
    (set_bond_port.BondPortSetRequest.executeRequest
        { request := { message := LinkMessage.default, replace := false },
          info_port_data := [] }).message.nlas
      = [Nla.Info [Info.PortKind InfoPortKind.Bond,
          Info.PortData (InfoPortData.BondPort [])]] ∧
    ([Info.PortKind InfoPortKind.Bond,
      Info.PortData (InfoPortData.BondPort [])].any isDataAttr) = true :=
  ⟨rfl, rfl⟩

/-- C2 as amended: executing either bond-port sub-builder always appends
an Info attribute whose nested list is the kind marker followed by a
port-data (resp. slave-data) payload carrying the accumulated list, even
when that list is empty. -/
theorem bond_port_execute_always_sends_data (b : BondPortSetRequest)
    (b2 : set_bond_port.BondPortSetRequest) :
    (b.executeRequest).message.nlas
      = b.request.message.nlas ++
        [Nla.Info [Info.SlaveKind InfoSlaveKind.Bond,
          Info.SlaveData (InfoSlaveData.BondPort b.info_slave_data)]] ∧
    (b2.executeRequest).message.nlas
      = b2.request.message.nlas ++
        [Nla.Info [Info.PortKind InfoPortKind.Bond,
          Info.PortData (InfoPortData.BondPort b2.info_port_data)]] :=
  ⟨rfl, rfl⟩

/-- C3: after `replace()` the header flags computed by `execute` still
contain `NLM_F_EXCL`: they are REQUEST|ACK|REPLACE|EXCLUSIVE|CREATE, the
unconditional `| NLM_F_EXCL` keeping the exclusive bit set. -/
theorem replace_keeps_excl_flag :
    ((LinkSetRequest.new 9).replaceReq).buildRequest.flags &&& NLM_F_EXCL
        = NLM_F_EXCL ∧
    ((LinkSetRequest.new 9).replaceReq).buildRequest.flags
      = NLM_F_REQUEST ||| NLM_F_ACK ||| NLM_F_REPLACE ||| NLM_F_EXCL |||
          NLM_F_CREATE ∧
    (((LinkSetRequest.new 9).replaceReq).replaceReq).buildRequest.flags
      = ((LinkSetRequest.new 9).replaceReq).buildRequest.flags := by
  refine ⟨?_, ?_, ?_⟩ <;> decide

/-- C7: `nomaster()` produces exactly the same resulting request state as
`master(0)`. -/
theorem nomaster_eq_master_zero (s : LinkSetRequest) :
    s.nomaster = s.master 0 := rfl

/-- C9: `bondport(n)` sets the name attribute — appending `IfName n` —
and wraps the resulting request in a sub-builder whose bond-port data
list is empty. -/
theorem bondport_appends_name (s : LinkSetRequest) (n : String) :
    (s.bondport n).request = s.name n ∧
    (s.bondport n).request.message.nlas = s.message.nlas ++ [Nla.IfName n] ∧
    (s.bondport n).info_slave_data = [] :=
  ⟨rfl, rfl, rfl⟩

/-- Draining succeeds exactly when no reply in the stream surfaces an
error code. -/
lemma drain_ok_iff (stream : List (Option Int)) :
    drain stream = Except.ok () ↔ ∀ m ∈ stream, tryNl m = none := by
  induction stream with
  | nil => simp [drain]
  | cons x rest ih =>
    cases h : tryNl x with
    | none => simp [drain, h, ih]
    | some c => simp [drain, h]

/-- Draining a stream whose prefix surfaces no error and which then holds
an error code stops at that code, whatever follows. -/
lemma drain_append_error (pre post : List (Option Int)) (c : Int)
    (hpre : ∀ m ∈ pre, tryNl m = none) (hc : c ≠ 0) :
    drain (pre ++ some c :: post) = Except.error c := by
  induction pre with
  | nil => simp [drain, tryNl, hc]
  | cons x rest ih =>
    have hx : tryNl x = none := hpre x (by simp)
    have hrest : ∀ m ∈ rest, tryNl m = none := fun m hm => hpre m (by simp [hm])
    simpa [drain, hx] using ih hrest

/-- C4: the draining loop of `execute` stops at the first reply carrying
a nonzero error code and returns exactly that error, never reading the
remaining replies (the result is the same for every tail after the
error); it returns success exactly when the whole stream is drained with
no error surfaced. -/
theorem drain_first_error_wins (pre post : List (Option Int)) (c : Int)
    (hpre : ∀ m ∈ pre, tryNl m = none) (hc : c ≠ 0) :
    drain (pre ++ some c :: post) = Except.error c ∧
    ∀ stream : List (Option Int),
      (drain stream = Except.ok () ↔ ∀ m ∈ stream, tryNl m = none) :=
  ⟨drain_append_error pre post c hpre hc, drain_ok_iff⟩

/-- C4 witness: the reply stream `[ok, ok, error(22), ok]` yields exactly
the error with code 22. -/
theorem drain_example_stream :
    drain [some 0, some 0, some 22, some 0] = Except.error 22 :=
  (drain_first_error_wins [some 0, some 0] [some 0] 22 (by decide)
    (by decide)).1

/-- Clearing a bit by AND-NOT leaves that bit clear. -/
lemma land_u32Not_one (x : Nat) : (x &&& u32Not 1) &&& 1 = 0 := by
  rw [Nat.land_assoc]
  have h : u32Not 1 &&& 1 = 0 := by decide
  rw [h]
  apply Nat.eq_of_testBit_eq
  intro i
  simp [Nat.testBit_land, Nat.zero_testBit]

/-- Setting a bit by OR leaves that bit set. -/
lemma lor_one_land_one (x : Nat) : (x ||| 1) &&& 1 = 1 := by
  apply Nat.eq_of_testBit_eq
  intro i
  rw [Nat.testBit_land, Nat.testBit_lor]
  cases i with
  | zero => simp
  | succ n => simp [Nat.testBit_succ, Nat.zero_testBit]

/-- C6: after `up()` then `down()` the UP bit is clear in the header flag
word and set in the change-mask; `up()` is idempotent on the whole
request state; and the flag setters never touch the attribute list. -/
theorem up_down_flag_bits (s : LinkSetRequest) :
    ((s.up).down).message.header.flags &&& IFF_UP = 0 ∧
    ((s.up).down).message.header.change_mask &&& IFF_UP = IFF_UP ∧
    (s.up).up = s.up ∧
    ((s.up).down).message.nlas = s.message.nlas := by
  have h11 : (1 : Nat) ||| 1 = 1 := by decide
  refine ⟨?_, ?_, ?_, rfl⟩
  · exact land_u32Not_one _
  · show ((s.message.header.change_mask ||| IFF_UP) ||| IFF_UP) &&& IFF_UP
        = IFF_UP
    rw [IFF_UP, Nat.lor_assoc, h11]
    exact lor_one_land_one _
  · simp [LinkSetRequest.up, Nat.lor_assoc, h11]

/-- Each setter call appends exactly its contributed attributes at the
end of the list. -/
lemma applyCall_nlas (c : SetterCall) (s : LinkSetRequest) :
    (applyCall c s).message.nlas = s.message.nlas ++ contributed c := by
  cases c <;>
    simp [applyCall, contributed, LinkSetRequest.master,
      LinkSetRequest.nomaster, LinkSetRequest.up, LinkSetRequest.down,
      LinkSetRequest.promiscuous, LinkSetRequest.arp, LinkSetRequest.name,
      LinkSetRequest.mtu, LinkSetRequest.address,
      LinkSetRequest.setns_by_pid, LinkSetRequest.setns_by_fd,
      LinkSetRequest.replaceReq]

/-- C8: a sequence of setter calls leaves the attribute list equal to the
starting list followed by the attributes the calls contribute, in call
order, duplicates included; each single call appends its contribution —
at most one attribute — at the end, leaving earlier entries untouched. -/
theorem setters_append_in_order (calls : List SetterCall)
    (s : LinkSetRequest) :
    (applyCalls calls s).message.nlas
      = s.message.nlas ++ contributedAll calls ∧
    ∀ c t, (applyCall c t).message.nlas = t.message.nlas ++ contributed c ∧
      (contributed c).length ≤ 1 := by
  constructor
  · induction calls generalizing s with
    | nil => simp [applyCalls, contributedAll]
    | cons c rest ih =>
      have h : applyCalls (c :: rest) s = applyCalls rest (applyCall c s) :=
        rfl
      rw [h, ih, applyCall_nlas, contributedAll, List.append_assoc]
  · intro c t
    exact ⟨applyCall_nlas c t, by cases c <;> simp [contributed]⟩

/-- C5: every Info attribute the builder emits — through `link_info` or
`port_link_info` — nests a list whose first element is the kind marker,
and every data sub-attribute in it sits at a strictly later position. -/
theorem info_kind_marker_first (s : LinkSetRequest) (k : InfoSlaveKind)
    (d : Option InfoSlaveData) (b : set_bond_port.BondPortSetRequest)
    (pk : InfoPortKind) (pd : Option InfoPortData) :
    (∃ l, (s.link_info k d).message.nlas = s.message.nlas ++ [Nla.Info l] ∧
      l.head? = some (Info.SlaveKind k) ∧
      ∀ i (h : i < l.length), isDataAttr (l.get ⟨i, h⟩) = true → 0 < i) ∧
    (∃ l, (b.port_link_info pk pd).request.message.nlas
        = b.request.message.nlas ++ [Nla.Info l] ∧
      l.head? = some (Info.PortKind pk) ∧
      ∀ i (h : i < l.length), isDataAttr (l.get ⟨i, h⟩) = true → 0 < i) := by
  constructor
  · cases d with
    | none =>
      refine ⟨[Info.SlaveKind k], rfl, rfl, ?_⟩
      intro i h hd
      cases i with
      | zero => simp [isDataAttr] at hd
      | succ n => exact Nat.succ_pos n
    | some dd =>
      refine ⟨[Info.SlaveKind k, Info.SlaveData dd], rfl, rfl, ?_⟩
      intro i h hd
      cases i with
      | zero => simp [isDataAttr] at hd
      | succ n => exact Nat.succ_pos n
  · cases pd with
    | none =>
      refine ⟨[Info.PortKind pk], rfl, rfl, ?_⟩
      intro i h hd
      cases i with
      | zero => simp [isDataAttr] at hd
      | succ n => exact Nat.succ_pos n
    | some dd =>
      refine ⟨[Info.PortKind pk, Info.PortData dd], rfl, rfl, ?_⟩
      intro i h hd
      cases i with
      | zero => simp [isDataAttr] at hd
      | succ n => exact Nat.succ_pos n

/-- Scanning a nested info list for its first port-data payload agrees
with taking the first sub-attribute the port-data test accepts. -/
lemma innerScan_eq (l : List Info) :
    (l.findSome? fun info =>
      match info with
      | Info.PortData data => some data
      | _ => none)
    = (match l.find? isPortDataInfo with
       | some (Info.PortData d) => some d
       | _ => none) := by
  induction l with
  | nil => rfl
  | cons x rest ih =>
    cases x <;>
      simp [List.findSome?_cons, List.find?_cons, isPortDataInfo, ih]

/-- Scanning the attribute list as `is_bond_port` does — first port-data
payload of each Info attribute, skipping Info attributes holding none —
agrees with first finding the Info attribute that contains a port-data
sub-attribute and then taking the first such sub-attribute inside it. -/
lemma scan_eq (nlas : List Nla) :
    (nlas.findSome? fun nla =>
      match nla with
      | Nla.Info info_data =>
        info_data.findSome? fun info =>
          match info with
          | Info.PortData data => some data
          | _ => none
      | _ => none)
    = (match nlas.find? nlaContainsPortData with
       | some (Nla.Info l) =>
         (match l.find? isPortDataInfo with
          | some (Info.PortData d) => some d
          | _ => none)
       | _ => none) := by
  induction nlas with
  | nil => rfl
  | cons x rest ih =>
    cases x with
    | Info l =>
      cases hf : l.find? isPortDataInfo with
      | none =>
        have hall : ∀ y ∈ l, ¬ isPortDataInfo y = true :=
          List.find?_eq_none.mp hf
        have hl : l.any isPortDataInfo = false := List.any_eq_false.mpr hall
        have hinner : (l.findSome? fun info =>
            match info with
            | Info.PortData data => some data
            | _ => none) = none := by
          rw [innerScan_eq, hf]
        simp [List.findSome?_cons, List.find?_cons, nlaContainsPortData,
          hinner, hl, ih]
      | some y =>
        have hpy : isPortDataInfo y = true := List.find?_some hf
        have hmem : y ∈ l := List.mem_of_find?_eq_some hf
        have hl : l.any isPortDataInfo = true :=
          List.any_eq_true.mpr ⟨y, hmem, hpy⟩
        cases y with
        | PortData d =>
          have hinner : (l.findSome? fun info =>
              match info with
              | Info.PortData data => some data
              | _ => none) = some d := by
            rw [innerScan_eq, hf]
          simp [List.findSome?_cons, List.find?_cons, nlaContainsPortData,
            hinner, hl, hf]
        | SlaveKind kk => simp [isPortDataInfo] at hpy
        | SlaveData dd => simp [isPortDataInfo] at hpy
        | PortKind kk => simp [isPortDataInfo] at hpy
        | Other bb => simp [isPortDataInfo] at hpy
    | Master i =>
      simp [List.findSome?_cons, List.find?_cons, nlaContainsPortData, ih]
    | IfName n =>
      simp [List.findSome?_cons, List.find?_cons, nlaContainsPortData, ih]
    | Mtu m =>
      simp [List.findSome?_cons, List.find?_cons, nlaContainsPortData, ih]
    | Address a =>
      simp [List.findSome?_cons, List.find?_cons, nlaContainsPortData, ih]
    | NetNsPid p =>
      simp [List.findSome?_cons, List.find?_cons, nlaContainsPortData, ih]
    | NetNsFd f =>
      simp [List.findSome?_cons, List.find?_cons, nlaContainsPortData, ih]
    | Other b =>
      simp [List.findSome?_cons, List.find?_cons, nlaContainsPortData, ih]

/-- C10: `is_bond_port` returns true exactly when the first port-data
sub-attribute found inside the first Info attribute that contains one is
the BondPort variant; with no Info attribute, or none holding a port-data
sub-attribute, the specification side yields nothing and the function
returns false. -/
theorem is_bond_port_characterisation (m : LinkMessage) :
    set_bond_port.BondPortSetRequest.is_bond_port m = true ↔
    ∃ ps, firstPortDataSpec m = some (InfoPortData.BondPort ps) := by
  simp only [set_bond_port.BondPortSetRequest.is_bond_port,
    firstPortDataSpec, scan_eq]
  cases hfind : m.nlas.find? nlaContainsPortData with
  | none => simp
  | some x =>
    cases x with
    | Info l =>
      cases hf2 : l.find? isPortDataInfo with
      | none => simp [hf2]
      | some y =>
        cases y with
        | PortData d =>
          cases d with
          | BondPort ps => simp [hf2]
          | Other bb => simp [hf2]
        | SlaveKind kk => simp [hf2]
        | SlaveData dd => simp [hf2]
        | PortKind kk => simp [hf2]
        | Other bb => simp [hf2]
    | Master i => simp
    | IfName n => simp
    | Mtu mm => simp
    | Address a => simp
    | NetNsPid p => simp
    | NetNsFd f => simp
    | Other b => simp

end Rtnetlink
